import Mathlib

/-!
Shallow embedding of src/main.cpp (JamesBremner/fl18605759): an interactive
test harness for a non-blocking TCP client built on a single-threaded
asynchronous reactor, with a keyboard-monitor thread, a one-slot command
mailbox and poll-based dispatcher (cCommander), a background work simulator
ticking on a timer (cWorkSimulator), and the TCP client itself
(cNonBlockingTCPClient).

Modelling conventions:
* C++ `int` is modelled as `Int`, `std::size_t` as `Nat`.
* `std::cout` lines become `List String` outputs; asynchronous boost::asio
  requests become explicit `Action` values.
* `mySocketTCP` is an `Option Nat` socket id (`none` = null pointer);
  `nextSock` is a fresh-id allocator and `freed` records deleted sockets, so
  leaking versus freeing the previous socket is observable.
* boost error codes at completion handlers become a `Bool` error flag; the
  environment of a Connect attempt (resolver outcome, connect outcome, socket
  open) becomes a `ConnectEnv` record.
* Out-of-bounds `std::vector::operator[]` access, which is undefined
  behavior in the source, is made observable as the dispatch outcome
  `connectOOB`; nothing after such an access is defined, so the model stops
  the poll there.
-/

namespace FL18605759

namespace cNonBlockingTCPClient

/-- MAX_PACKET_SIZE_BYTES from main.cpp line 10. -/
def MAX_PACKET_SIZE_BYTES : Int := 1024

/-- Connection status enum of cNonBlockingTCPClient (member myConnection):
no connection, connected, connection being made. -/
inductive constatus
  | no
  | yes
  | not_yet
  deriving DecidableEq

/-- Asynchronous boost::asio requests issued by the client, recorded
explicitly: a receive request (async_read into myRcvBuffer for byteCount
bytes), the 15-byte connect-hello write (myConnectMessage) and the 15-byte
probe write (myWriteMessage). Each records the socket it was issued on. -/
inductive Action
  | asyncRead (sock : Option Nat) (byteCount : Int)
  | asyncWriteConnect (sock : Option Nat) (len : Nat)
  | asyncWriteProbe (sock : Option Nat) (len : Nat)
  deriving DecidableEq

/-- The mutable state of cNonBlockingTCPClient together with a socket
allocator: mySocketTCP is the socket pointer (none = null), nextSock the next
fresh socket id, freed the ids of sockets that were deleted. The receive
buffer myRcvBuffer holds external input and is not modelled. The constructor
(main.cpp lines 26-32) initializes neither myConnection nor mySocketTCP. -/
structure ClientState where
  myConnection : constatus
  mySocketTCP : Option Nat
  nextSock : Nat
  freed : List Nat
  deriving DecidableEq

/-- cNonBlockingTCPClient constructor (main.cpp lines 26-32): it stores the
io_service reference and allocates the timer, leaving myConnection and
mySocketTCP uninitialized; the parameters stand for those indeterminate
initial values. -/
def mkClient (c0 : constatus) (p0 : Option Nat) : ClientState :=
  { myConnection := c0, mySocketTCP := p0, nextSock := 0, freed := [] }

/-- cNonBlockingTCPClient::Read (main.cpp lines 405-428), translated
clause by clause: reject when not connected; when byte_count < 1 print
"Error in read command" and fall through (the source has no return there);
when byte_count > MAX_PACKET_SIZE_BYTES print and return; otherwise issue
async_read on *mySocketTCP for byte_count bytes and print the waiting line. -/
def Read (s : ClientState) (byte_count : Int) :
    ClientState × List String × List Action :=
  if s.myConnection ≠ constatus.yes then
    (s, ["Read Request but no connection"], [])
  else
    let out1 : List String :=
      if byte_count < 1 then ["Error in read command"] else []
    if byte_count > MAX_PACKET_SIZE_BYTES then
      (s, out1 ++ ["Too many bytes requested"], [])
    else
      (s, out1 ++ ["waiting for server to reply"],
        [Action.asyncRead s.mySocketTCP byte_count])

/-- cNonBlockingTCPClient::Write (main.cpp lines 430-443): reject when not
connected, otherwise issue the 15-byte probe write on *mySocketTCP. -/
def Write (s : ClientState) : ClientState × List String × List Action :=
  if s.myConnection ≠ constatus.yes then
    (s, ["Write Request but no connection"], [])
  else
    (s, [], [Action.asyncWriteProbe s.mySocketTCP 15])

/-- Environment of one Connect attempt: whether the resolver succeeds,
whether boost::asio::connect succeeds, and whether the socket reports open
afterwards. -/
structure ConnectEnv where
  resolveOk : Bool
  connectOk : Bool
  socketOpen : Bool
  deriving DecidableEq

/-- The try block of cNonBlockingTCPClient::Connect (main.cpp lines 365-398):
resolve (throwing on resolver error), allocate a fresh socket with new,
connect; on connect error or closed socket delete the socket, null the
pointer, set myConnection to no and report; on success set myConnection to
yes, report, and issue the 15-byte hello write on the new socket. -/
def Connect_try (s : ClientState) (env : ConnectEnv) :
    Except String (ClientState × List String × List Action) :=
  if env.resolveOk = false then
    Except.error "resolve"
  else
    let newSock := s.nextSock
    let s1 : ClientState :=
      { s with mySocketTCP := some newSock, nextSock := s.nextSock + 1 }
    if env.connectOk = false ∨ env.socketOpen = false then
      Except.ok
        ({ s1 with
             mySocketTCP := none
             freed := newSock :: s1.freed
             myConnection := constatus.no },
          ["Client Connection failed"], [])
    else
      Except.ok
        ({ s1 with myConnection := constatus.yes },
          ["Client Connected OK"],
          [Action.asyncWriteConnect (some newSock) 15])

/-- cNonBlockingTCPClient::Connect (main.cpp lines 361-404): the try block
wrapped in catch (...); the handler only prints "Client Connection failed 2"
and leaves the state as it was, so no exception escapes to the reactor. -/
def Connect (s : ClientState) (env : ConnectEnv) :
    ClientState × List String × List Action :=
  match Connect_try s env with
  | Except.ok r => r
  | Except.error _ => (s, ["Client Connection failed 2"], [])

/-- cNonBlockingTCPClient::handle_read (main.cpp lines 445-459): on error,
report "Connection closed" and set myConnection to no; otherwise report the
byte count. The hex dump of myRcvBuffer depends on unmodelled external bytes
and is elided from the output list. -/
def handle_read (s : ClientState) (error : Bool) (bytes_received : Nat) :
    ClientState × List String :=
  if error then
    ({ s with myConnection := constatus.no }, ["Connection closed"])
  else
    (s, [toString bytes_received ++ " bytes read"])

/-- cNonBlockingTCPClient::handle_connect_write (main.cpp lines 461-472):
on error or a transfer of other than 15 bytes, report and set myConnection
to no; otherwise report success. -/
def handle_connect_write (s : ClientState) (error : Bool) (bytes_sent : Nat) :
    ClientState × List String :=
  if error = true ∨ bytes_sent ≠ 15 then
    ({ s with myConnection := constatus.no },
      ["Error sending connection message to server"])
  else
    (s, ["Connection message sent to server"])

/-- cNonBlockingTCPClient::handle_write (main.cpp lines 474-485): on error or
a transfer of other than 15 bytes, report and set myConnection to no;
otherwise report success. -/
def handle_write (s : ClientState) (error : Bool) (bytes_sent : Nat) :
    ClientState × List String :=
  if error = true ∨ bytes_sent ≠ 15 then
    ({ s with myConnection := constatus.no },
      ["Error sending write message to server"])
  else
    (s, ["Write message sent to server"])

end cNonBlockingTCPClient

namespace cWorkSimulator

/-- WORK_TIME_MSECS from main.cpp line 15. -/
def WORK_TIME_MSECS : Nat := 2000

/-- The mutable state of cWorkSimulator: the two mutex-guarded flags, the
static job counter inside FinishWork, and the pending timer wait in
milliseconds (none when no wait is scheduled). -/
structure WSState where
  myfWaitOnUser : Bool
  myfStop : Bool
  count : Nat
  timer : Option Nat
  deriving DecidableEq

/-- cWorkSimulator::StartWork (main.cpp lines 105-111): schedule the timer to
fire FinishWork after WORK_TIME_MSECS milliseconds. -/
def StartWork (s : WSState) : WSState :=
  { s with timer := some WORK_TIME_MSECS }

/-- cWorkSimulator::FinishWork (main.cpp lines 113-130), run when the timer
fires (which consumes the pending wait): if the stop flag is set, print
"Stopping" and return without rescheduling; otherwise, unless waiting on
user, increment the job counter and report it; in either case reschedule via
StartWork. -/
def FinishWork (s : WSState) : WSState × List String :=
  let s0 : WSState := { s with timer := none }
  if s0.myfStop then
    (s0, ["Stopping"])
  else if s0.myfWaitOnUser then
    (StartWork s0, [])
  else
    (StartWork { s0 with count := s0.count + 1 },
      ["Completed Job " ++ toString (s0.count + 1)])

/-- cWorkSimulator::WaitOnUserSet (main.cpp lines 131-135). -/
def WaitOnUserSet (s : WSState) : WSState :=
  { s with myfWaitOnUser := true }

/-- cWorkSimulator::WaitOnUserUnSet (main.cpp lines 136-140). -/
def WaitOnUserUnSet (s : WSState) : WSState :=
  { s with myfWaitOnUser := false }

/-- cWorkSimulator::Stop (main.cpp lines 146-150). -/
def Stop (s : WSState) : WSState :=
  { s with myfStop := true }

/-- cWorkSimulator::StopGet (main.cpp lines 151-155). -/
def StopGet (s : WSState) : Bool :=
  s.myfStop

/-- The operations of cWorkSimulator that can run on its state, used to state
that no operation resets the stop flag. -/
inductive WSOp
  | startWork
  | finishWork
  | waitOnUserSet
  | waitOnUserUnSet
  | stop
  deriving DecidableEq

/-- Apply one cWorkSimulator operation to the state. -/
def WSOp.apply : WSOp → WSState → WSState
  | WSOp.startWork, s => StartWork s
  | WSOp.finishWork, s => (FinishWork s).1
  | WSOp.waitOnUserSet, s => WaitOnUserSet s
  | WSOp.waitOnUserUnSet, s => WaitOnUserUnSet s
  | WSOp.stop, s => Stop s

end cWorkSimulator

namespace cCommander

open cNonBlockingTCPClient

/-- cCommander::Command(const string&) (main.cpp lines 350-354): the writer
side of the one-slot mailbox; locks the mutex and overwrites myCommand
(last-write-wins). -/
def Command_set (_slot : String) (command : String) : String :=
  command

/-- cCommander::Command() (main.cpp lines 355-359): the reader side of the
mailbox; locks the mutex and returns myCommand. Translated to state passing:
the returned value together with the slot content after the call. Note the
slot is not cleared by this call. -/
def Command_get (slot : String) : String × String :=
  (slot, slot)

/-- Modelled from the spec: the mailbox read operation as the spec words it
(TakeAndClear), for comparison with Command_get: atomically reads and clears
the slot, returning the empty string when nothing is pending. -/
def spec_TakeAndClear (slot : String) : String × String :=
  (slot, "")

/-- One iteration of the tokenizing loop in cCommander::CheckForCommand
(main.cpp lines 304-308): std::getline on a stringstream with delimiter
space. A token ends at a space or at the end of input; after consuming the
final character, a further getline fails and the loop stops, so a trailing
space yields no trailing empty token. -/
def toksAux : List Char → List Char → List (List Char)
  | [], cur => [cur.reverse]
  | c :: rest, cur =>
    if c = ' ' then
      if rest = [] then [cur.reverse]
      else cur.reverse :: toksAux rest []
    else toksAux rest (c :: cur)

/-- The token vector vcmd built by cCommander::CheckForCommand from a
command line (empty input yields no tokens; the caller only tokenizes
non-empty commands). -/
def tokenize (cmd : String) : List String :=
  if cmd.toList = [] then []
  else (toksAux cmd.toList []).map fun cs => String.mk cs

/-- std::string::operator[] as used on the first token (vcmd[0][0]): for a
position equal to the size it returns the null character (defined behavior
since C++11). -/
def strIndex (s : String) (i : Nat) : Char :=
  s.toList.getD i (Char.ofNat 0)

/-- Digit-consuming loop of C atoi: accumulate decimal digits, stop at the
first non-digit. -/
def atoiLoop : List Char → Nat → Nat
  | [], acc => acc
  | c :: rest, acc =>
    if c.isDigit then atoiLoop rest (10 * acc + (c.toNat - 48)) else acc

/-- C atoi as called on vcmd[1] (main.cpp line 317): skip leading
whitespace, read an optional sign, then decimal digits; returns 0 when no
digits are found. Overflow, undefined in C, is not modelled (the program
only feeds small interactive byte counts). -/
def atoi (s : String) : Int :=
  let cs := s.toList.dropWhile fun c =>
    c = ' ' ∨ c = '\t' ∨ c = '\n' ∨ c = '\r'
  match cs with
  | '-' :: rest => -(atoiLoop rest 0 : Int)
  | '+' :: rest => (atoiLoop rest 0 : Int)
  | _ => (atoiLoop cs 0 : Int)

/-- The call routed out of one dispatch of cCommander::CheckForCommand:
either a call into cNonBlockingTCPClient (Read with the atoi byte count,
Connect with host and port, Write), a reported malformed Read, the stop
case X, an unrecognized command, an idle poll, or the undefined
out-of-bounds vector access of a C command missing its tokens. -/
inductive DispatchResult
  | noCommand
  | readMissing
  | readCmd (byteCount : Int)
  | connectCmd (host : String) (port : String)
  | connectOOB
  | writeCmd
  | stopDispatch
  | unrecognized
  deriving DecidableEq

/-- The switch statement of cCommander::CheckForCommand (main.cpp lines
310-338), on the already-built token vector: switch on the first character
of the first token; R requires a second token else reports; C indexes
vcmd[1] and vcmd[2] unchecked (out of bounds when absent); W takes no
arguments; X stops the dispatcher; anything else is unrecognized. Returns
the routed call and the lines printed by the switch itself. -/
def dispatch (vcmd : List String) : DispatchResult × List String :=
  let c := strIndex (vcmd.headD "") 0
  if c = 'r' ∨ c = 'R' then
    if vcmd.length < 2 then
      (DispatchResult.readMissing, ["Read command missing byte count"])
    else
      (DispatchResult.readCmd (atoi (vcmd.getD 1 "")), [])
  else if c = 'c' ∨ c = 'C' then
    match vcmd.get? 1, vcmd.get? 2 with
    | some host, some port => (DispatchResult.connectCmd host port, [])
    | _, _ => (DispatchResult.connectOOB, [])
  else if c = 'w' ∨ c = 'W' then
    (DispatchResult.writeCmd, [])
  else if c = 'x' ∨ c = 'X' then
    (DispatchResult.stopDispatch, [])
  else
    (DispatchResult.unrecognized, ["Unrecognized command"])

/-- Everything observable about one poll of cCommander::CheckForCommand: the
routed call, the printed lines, the mailbox slot afterwards, and the
rescheduled timer delay in milliseconds (none when the poll does not
reschedule itself). -/
structure PollOutcome where
  routed : DispatchResult
  outputs : List String
  slotAfter : String
  reschedule : Option Nat
  deriving DecidableEq

/-- cCommander::CheckForCommand (main.cpp lines 297-348): read the mailbox
slot; when non-empty, echo it, tokenize and dispatch; on X return without
clearing or rescheduling; after the out-of-bounds C access nothing is
defined, so the model stops the poll there; otherwise clear the slot by
posting the empty string and reschedule after 500 ms. An empty slot polls
idle and still reschedules. -/
def CheckForCommand (slot : String) : PollOutcome :=
  let cmd := (Command_get slot).1
  if cmd.length = 0 then
    { routed := DispatchResult.noCommand
      outputs := []
      slotAfter := slot
      reschedule := some 500 }
  else
    let echo := "cNonBlockingTCPClient::CheckForCommand " ++ cmd
    let r := dispatch (tokenize cmd)
    if r.1 = DispatchResult.stopDispatch then
      { routed := r.1
        outputs := echo :: r.2
        slotAfter := slot
        reschedule := none }
    else if r.1 = DispatchResult.connectOOB then
      { routed := r.1
        outputs := echo :: r.2
        slotAfter := slot
        reschedule := none }
    else
      { routed := r.1
        outputs := echo :: r.2
        slotAfter := Command_set slot ""
        reschedule := some 500 }

/-- One poll of cCommander::CheckForCommand during which the keyboard thread
posts the command p between the dispatcher's read of the slot (main.cpp line
299) and the dispatcher's clearing write (line 341). Each of the three
accesses locks the mutex separately, so this interleaving is allowed by the
source; the clearing write then erases p. -/
def CheckForCommandWithPost (slot : String) (p : String) : PollOutcome :=
  let cmd := (Command_get slot).1
  if cmd.length = 0 then
    { routed := DispatchResult.noCommand
      outputs := []
      slotAfter := Command_set slot p
      reschedule := some 500 }
  else
    let echo := "cNonBlockingTCPClient::CheckForCommand " ++ cmd
    let r := dispatch (tokenize cmd)
    let slot1 := Command_set slot p
    if r.1 = DispatchResult.stopDispatch then
      { routed := r.1
        outputs := echo :: r.2
        slotAfter := slot1
        reschedule := none }
    else if r.1 = DispatchResult.connectOOB then
      { routed := r.1
        outputs := echo :: r.2
        slotAfter := slot1
        reschedule := none }
    else
      { routed := r.1
        outputs := echo :: r.2
        slotAfter := Command_set slot1 ""
        reschedule := some 500 }

end cCommander

end FL18605759


namespace FL18605759

open cNonBlockingTCPClient cWorkSimulator cCommander

/-! Helper lemmas about the dispatcher switch. -/

/-- When the first character of the first token is x or X, the switch routes
the stop case and prints nothing. -/
theorem dispatch_x (v : List String)
    (h : strIndex (v.headD "") 0 = 'x' ∨ strIndex (v.headD "") 0 = 'X') :
    dispatch v = (DispatchResult.stopDispatch, []) := by
  have h' : strIndex (v.head?.getD "") 0 = 'x' ∨
      strIndex (v.head?.getD "") 0 = 'X' := by
    simpa using h
  rcases h' with h' | h' <;> simp +decide [dispatch, h']

/-- When the first character of the first token selects none of the switch
cases, the switch reports an unrecognized command. -/
theorem dispatch_default (v : List String)
    (h : strIndex (v.headD "") 0 ∉
      (['c', 'C', 'r', 'R', 'w', 'W', 'x', 'X'] : List Char)) :
    dispatch v = (DispatchResult.unrecognized, ["Unrecognized command"]) := by
  simp only [List.mem_cons, List.not_mem_nil, or_false, not_or,
    List.headD_eq_head?_getD] at h
  obtain ⟨hc, hC, hr, hR, hw, hW, hx, hX⟩ := h
  simp [dispatch, hc, hC, hr, hR, hw, hW, hx, hX]

/-! Theorems settling the claims. -/

/-- Claim C1 (code-bug evidence): at the failing input Read(0) in the
Connected state, the client reports "Error in read command" yet still issues
the receive request, because the byte_count < 1 branch of Read lacks a
return. For contrast, the remaining parts of the claim hold on the code: an
in-range request issues exactly one receive for that many bytes, an
oversized request issues no receive, and a request while not connected
issues none and reports the precondition error. -/
theorem C1_read_zero_bug :
    (Read ⟨constatus.yes, some 0, 1, []⟩ 0).2.1
      = ["Error in read command", "waiting for server to reply"] ∧
    (Read ⟨constatus.yes, some 0, 1, []⟩ 0).2.2
      = [Action.asyncRead (some 0) 0] ∧
    (Read ⟨constatus.yes, some 0, 1, []⟩ 10).2.2
      = [Action.asyncRead (some 0) 10] ∧
    (Read ⟨constatus.yes, some 0, 1, []⟩ 1025).2.2 = [] ∧
    (Read ⟨constatus.yes, some 0, 1, []⟩ 1025).2.1
      = ["Too many bytes requested"] ∧
    (Read ⟨constatus.no, some 0, 1, []⟩ 10).2.2 = [] ∧
    (Read ⟨constatus.no, some 0, 1, []⟩ 10).2.1
      = ["Read Request but no connection"] := by
  decide

/-- Claim C2 counterexample: the mailbox read (cCommander::Command()) does
not clear the slot, unlike the atomic TakeAndClear of the claim; and a
command "R 4" posted after the dispatcher has read "W" but before the
dispatcher's separate clearing write is erased without ever having been
dispatched, so it is lost other than by being overwritten by a later post. -/
theorem C2_counterexample :
    (Command_get "W").2 = "W" ∧
    Command_get "W" ≠ spec_TakeAndClear "W" ∧
    (CheckForCommandWithPost "W" "R 4").routed = DispatchResult.writeCmd ∧
    (CheckForCommandWithPost "W" "R 4").slotAfter = "" := by
  decide

/-- Claim C2 (amended): posting overwrites the slot (last-write-wins) and
reading an empty slot returns the empty string, but the read leaves the slot
in place; the dispatcher clears it by a separate write after handling, so a
command posted between the read and the clear is erased without being
dispatched in that poll. -/
theorem C2_mailbox_semantics (slot a p : String)
    (h1 : slot.length ≠ 0)
    (h2 : (dispatch (tokenize slot)).1 ≠ DispatchResult.stopDispatch)
    (h3 : (dispatch (tokenize slot)).1 ≠ DispatchResult.connectOOB) :
    Command_get slot = (slot, slot) ∧
    Command_set (Command_set slot a) p = p ∧
    (Command_get "").1 = "" ∧
    (CheckForCommandWithPost slot p).routed = (dispatch (tokenize slot)).1 ∧
    (CheckForCommandWithPost slot p).slotAfter = "" := by
  refine ⟨rfl, rfl, rfl, ?_, ?_⟩ <;>
    simp [CheckForCommandWithPost, Command_get, Command_set, h1, h2, h3]

/-- Witness for C2_mailbox_semantics at the slot "W" with overwrite posts
"R 5", "R 4" and the interleaved post "R 4". -/
theorem C2_mailbox_semantics_witness :
    "W".length ≠ 0 ∧
    (dispatch (tokenize "W")).1 ≠ DispatchResult.stopDispatch ∧
    (dispatch (tokenize "W")).1 ≠ DispatchResult.connectOOB ∧
    (Command_get "W" = ("W", "W") ∧
      Command_set (Command_set "W" "R 5") "R 4" = "R 4" ∧
      (Command_get "").1 = "" ∧
      (CheckForCommandWithPost "W" "R 4").routed
        = (dispatch (tokenize "W")).1 ∧
      (CheckForCommandWithPost "W" "R 4").slotAfter = "") :=
  ⟨by decide, by decide, by decide,
    C2_mailbox_semantics "W" "R 5" "R 4" (by decide) (by decide) (by decide)⟩

/-- Claim C3 (code-bug evidence): a C command missing its host and port
tokens is not reported and discarded; the dispatcher indexes vcmd[1] and
vcmd[2] out of bounds (undefined behavior in the source). The R command, by
contrast, is guarded and reported when its byte count is missing. -/
theorem C3_connect_missing_tokens_bug :
    (CheckForCommand "C").routed = DispatchResult.connectOOB ∧
    (CheckForCommand "C 127.0.0.1").routed = DispatchResult.connectOOB ∧
    (CheckForCommand "R").routed = DispatchResult.readMissing ∧
    "Read command missing byte count" ∈ (CheckForCommand "R").outputs := by
  decide

/-- Claim C4: once the stop flag is set, no cWorkSimulator operation resets
it (Stop is irreversible, and idempotent), and a timer firing with the stop
flag set prints the stopping line, does not increment the job counter and
does not reschedule the timer. -/
theorem C4_stop_terminal (s : WSState) (op : WSOp) (h : s.myfStop = true) :
    (WSOp.apply op s).myfStop = true ∧
    (FinishWork s).1.count = s.count ∧
    (FinishWork s).1.timer = none ∧
    (FinishWork s).2 = ["Stopping"] ∧
    Stop (Stop s) = Stop s := by
  cases op <;>
    simp [WSOp.apply, FinishWork, StartWork, WaitOnUserSet, WaitOnUserUnSet,
      Stop, h]

/-- Witness for C4_stop_terminal at a stopped state and the finishWork
operation. -/
theorem C4_stop_terminal_witness :
    (⟨false, true, 3, some 2000⟩ : WSState).myfStop = true ∧
    ((WSOp.apply WSOp.finishWork ⟨false, true, 3, some 2000⟩).myfStop = true ∧
      (FinishWork (⟨false, true, 3, some 2000⟩ : WSState)).1.count = 3 ∧
      (FinishWork (⟨false, true, 3, some 2000⟩ : WSState)).1.timer = none ∧
      (FinishWork (⟨false, true, 3, some 2000⟩ : WSState)).2 = ["Stopping"] ∧
      Stop (Stop ⟨false, true, 3, some 2000⟩) = Stop ⟨false, true, 3, some 2000⟩) :=
  ⟨by decide,
    C4_stop_terminal ⟨false, true, 3, some 2000⟩ WSOp.finishWork (by decide)⟩

/-- Claim C5: on a timer firing while not stopped, a set pause flag
suppresses the increment and the report but the timer is still rescheduled
for WORK_TIME_MSECS; a clear pause flag increments the counter by exactly
one and reports the completion, also rescheduling; and after the pause flag
is cleared the very next firing increments by exactly one, with no replay
of ticks skipped while paused. -/
theorem C5_pause_tick (s : WSState) (h : s.myfStop = false) :
    (s.myfWaitOnUser = true →
      (FinishWork s).1.count = s.count ∧
      (FinishWork s).1.timer = some WORK_TIME_MSECS ∧
      (FinishWork s).2 = []) ∧
    (s.myfWaitOnUser = false →
      (FinishWork s).1.count = s.count + 1 ∧
      (FinishWork s).1.timer = some WORK_TIME_MSECS ∧
      (FinishWork s).2 = ["Completed Job " ++ toString (s.count + 1)]) ∧
    (FinishWork (WaitOnUserUnSet s)).1.count = s.count + 1 := by
  refine ⟨fun hw => ?_, fun hw => ?_, ?_⟩ <;>
    simp [FinishWork, StartWork, WaitOnUserUnSet, h, *]

/-- Witness for C5_pause_tick at an unpaused running state with counter 5. -/
theorem C5_pause_tick_witness :
    (FinishWork (⟨false, false, 5, some 2000⟩ : WSState)).1.count = 5 + 1 ∧
    (FinishWork (⟨false, false, 5, some 2000⟩ : WSState)).1.timer
      = some WORK_TIME_MSECS ∧
    (FinishWork (⟨false, false, 5, some 2000⟩ : WSState)).2
      = ["Completed Job " ++ toString (5 + 1)] :=
  (C5_pause_tick ⟨false, false, 5, some 2000⟩ (by decide)).2.1 (by decide)

/-- Claim C6 counterexample: the command "WOW", whose first token "WOW" is
none of C, R, W, X in either case, is not reported as unrecognized: the
dispatcher routes by the first character of the first token only and calls
Write. -/
theorem C6_counterexample :
    (tokenize "WOW").headD "" = "WOW" ∧
    (CheckForCommand "WOW").routed = DispatchResult.writeCmd ∧
    (CheckForCommand "WOW").routed ≠ DispatchResult.unrecognized ∧
    "Unrecognized command" ∉ (CheckForCommand "WOW").outputs := by
  decide

/-- Claim C6 (amended): a non-empty command whose first token begins with x
or X makes the poll route the stop case and return without rescheduling; a
non-empty command whose first token begins with none of c, r, w, x in either
case is reported as unrecognized and the poll reschedules after 500 ms; an
empty slot polls idle and reschedules after 500 ms; and every poll that
routes neither the stop case nor the undefined out-of-bounds C case
reschedules after exactly 500 ms. -/
theorem C6_poll_routing (slot : String) :
    (slot.length ≠ 0 →
      (strIndex ((tokenize slot).headD "") 0 = 'x' ∨
        strIndex ((tokenize slot).headD "") 0 = 'X') →
      (CheckForCommand slot).routed = DispatchResult.stopDispatch ∧
      (CheckForCommand slot).reschedule = none) ∧
    (slot.length ≠ 0 →
      strIndex ((tokenize slot).headD "") 0 ∉
        (['c', 'C', 'r', 'R', 'w', 'W', 'x', 'X'] : List Char) →
      (CheckForCommand slot).routed = DispatchResult.unrecognized ∧
      "Unrecognized command" ∈ (CheckForCommand slot).outputs ∧
      (CheckForCommand slot).reschedule = some 500) ∧
    (slot.length = 0 →
      (CheckForCommand slot).routed = DispatchResult.noCommand ∧
      (CheckForCommand slot).reschedule = some 500) ∧
    ((CheckForCommand slot).routed ≠ DispatchResult.stopDispatch →
      (CheckForCommand slot).routed ≠ DispatchResult.connectOOB →
      (CheckForCommand slot).reschedule = some 500) := by
  refine ⟨fun h hx => ?_, fun h hu => ?_, fun h => ?_, fun hstop hoob => ?_⟩
  · simp [CheckForCommand, Command_get, h, dispatch_x _ hx]
  · simp [CheckForCommand, Command_get, h, dispatch_default _ hu]
  · simp [CheckForCommand, Command_get, h]
  · by_cases h : slot.length = 0
    · simp [CheckForCommand, Command_get, h]
    · simp only [CheckForCommand, Command_get, h, if_false] at hstop hoob ⊢
      split_ifs at hstop hoob ⊢ <;> simp_all

/-- Witness for C6_poll_routing at the slot "x": the poll routes the stop
case and does not reschedule. -/
theorem C6_poll_routing_witness :
    (CheckForCommand "x").routed = DispatchResult.stopDispatch ∧
    (CheckForCommand "x").reschedule = none :=
  (C6_poll_routing "x").1 (by decide) (by decide)

/-- Claim C7 counterexample: a Connect attempt that fails with a resolution
error, made while the state is Connected, reports the failure but leaves the
connection state Connected; the claim says every failing attempt sets the
state to Disconnected. -/
theorem C7_counterexample :
    Connect ⟨constatus.yes, some 0, 1, []⟩ ⟨false, true, true⟩
      = (⟨constatus.yes, some 0, 1, []⟩, ["Client Connection failed 2"], []) ∧
    (Connect ⟨constatus.yes, some 0, 1, []⟩ ⟨false, true, true⟩).1.myConnection
      ≠ constatus.no := by
  decide

/-- Claim C7 (amended): on a connect error or an unusable socket the state
is set to Disconnected, the socket is deleted and nulled, and the failure is
reported; on a resolution error the exception is caught inside Connect and
reported, leaving the entire state unchanged; in neither case does an
exception propagate to the reactor (Connect always returns a report). -/
theorem C7_connect_failure (s : ClientState) (env : ConnectEnv) :
    (env.resolveOk = false →
      Connect s env = (s, ["Client Connection failed 2"], [])) ∧
    (env.resolveOk = true →
      env.connectOk = false ∨ env.socketOpen = false →
      (Connect s env).1.myConnection = constatus.no ∧
      (Connect s env).1.mySocketTCP = none ∧
      (Connect s env).2.1 = ["Client Connection failed"] ∧
      (Connect s env).2.2 = []) := by
  refine ⟨fun h => ?_, fun h hf => ?_⟩
  · simp [Connect, Connect_try, h]
  · rcases hf with hf | hf <;> simp [Connect, Connect_try, h, hf]

/-- Witness for C7_connect_failure: a connect error while disconnected sets
the state to Disconnected with the failure reported and no hello issued. -/
theorem C7_connect_failure_witness :
    (Connect (⟨constatus.no, none, 0, []⟩ : ClientState)
        ⟨true, false, true⟩).1.myConnection = constatus.no ∧
    (Connect (⟨constatus.no, none, 0, []⟩ : ClientState)
        ⟨true, false, true⟩).1.mySocketTCP = none ∧
    (Connect (⟨constatus.no, none, 0, []⟩ : ClientState)
        ⟨true, false, true⟩).2.1 = ["Client Connection failed"] ∧
    (Connect (⟨constatus.no, none, 0, []⟩ : ClientState)
        ⟨true, false, true⟩).2.2 = [] :=
  (C7_connect_failure ⟨constatus.no, none, 0, []⟩ ⟨true, false, true⟩).2
    (by decide) (by decide)

/-- Claim C8: Write while not Connected issues no request, changes no state
and reports the precondition error; Write while Connected issues the 15-byte
probe write; its completion handler reports success exactly when no error
occurred and exactly 15 bytes were sent, and on any error or short transfer
sets the state to Disconnected and reports. -/
theorem C8_write_semantics (s t : ClientState) (e : Bool) (n : Nat)
    (hs : s.myConnection ≠ constatus.yes)
    (ht : t.myConnection = constatus.yes)
    (hen : e = true ∨ n ≠ 15) :
    Write s = (s, ["Write Request but no connection"], []) ∧
    Write t = (t, [], [Action.asyncWriteProbe t.mySocketTCP 15]) ∧
    handle_write t false 15 = (t, ["Write message sent to server"]) ∧
    (handle_write t e n).1 = { t with myConnection := constatus.no } ∧
    (handle_write t e n).2 = ["Error sending write message to server"] := by
  refine ⟨?_, ?_, ?_, ?_, ?_⟩
  · simp [Write, hs]
  · simp [Write, ht]
  · simp [handle_write]
  · rcases hen with h | h <;> simp [handle_write, h]
  · rcases hen with h | h <;> simp [handle_write, h]

/-- Witness for C8_write_semantics with a disconnected state, a connected
state, and a failed probe-write completion of 0 bytes. -/
theorem C8_write_semantics_witness :
    Write (⟨constatus.no, none, 0, []⟩ : ClientState)
      = (⟨constatus.no, none, 0, []⟩, ["Write Request but no connection"], []) ∧
    Write (⟨constatus.yes, some 1, 2, []⟩ : ClientState)
      = (⟨constatus.yes, some 1, 2, []⟩, [],
          [Action.asyncWriteProbe (some 1) 15]) ∧
    handle_write (⟨constatus.yes, some 1, 2, []⟩ : ClientState) false 15
      = (⟨constatus.yes, some 1, 2, []⟩, ["Write message sent to server"]) ∧
    (handle_write (⟨constatus.yes, some 1, 2, []⟩ : ClientState) true 0).1
      = (⟨constatus.no, some 1, 2, []⟩ : ClientState) ∧
    (handle_write (⟨constatus.yes, some 1, 2, []⟩ : ClientState) true 0).2
      = ["Error sending write message to server"] :=
  C8_write_semantics ⟨constatus.no, none, 0, []⟩ ⟨constatus.yes, some 1, 2, []⟩
    true 0 (by decide) (by decide) (by decide)

/-- Claim C9: Connect never inspects the current connection state, so a
Connect while already Connected behaves exactly as it would in any other
state; on success it replaces the socket pointer with a freshly allocated
connected socket, frees nothing (the previous socket is leaked, neither
closed nor deleted), leaves the state Connected and issues the 15-byte hello
on the new socket. -/
theorem C9_reconnect_no_state_check (s : ClientState) (k : Nat)
    (env : ConnectEnv)
    (hconn : s.myConnection = constatus.yes)
    (hsock : s.mySocketTCP = some k)
    (hk : k < s.nextSock)
    (hr : env.resolveOk = true)
    (hc : env.connectOk = true)
    (ho : env.socketOpen = true) :
    (∀ c : constatus, Connect { s with myConnection := c } env = Connect s env) ∧
    (Connect s env).1.myConnection = constatus.yes ∧
    (Connect s env).1.mySocketTCP = some s.nextSock ∧
    (Connect s env).1.mySocketTCP ≠ s.mySocketTCP ∧
    (Connect s env).1.freed = s.freed ∧
    (Connect s env).2.2 = [Action.asyncWriteConnect (some s.nextSock) 15] := by
  refine ⟨fun c => ?_, ?_, ?_, ?_, ?_, ?_⟩ <;>
    simp [Connect, Connect_try, hr, hc, ho, hsock]
  omega

/-- Witness for C9_reconnect_no_state_check: a second successful Connect
from a connected state holding socket 0 allocates socket 1, leaves socket 0
unfreed and sends the hello on socket 1. -/
theorem C9_reconnect_no_state_check_witness :
    (Connect (⟨constatus.yes, some 0, 1, []⟩ : ClientState)
        ⟨true, true, true⟩).1.myConnection = constatus.yes ∧
    (Connect (⟨constatus.yes, some 0, 1, []⟩ : ClientState)
        ⟨true, true, true⟩).1.mySocketTCP = some 1 ∧
    (Connect (⟨constatus.yes, some 0, 1, []⟩ : ClientState)
        ⟨true, true, true⟩).1.mySocketTCP ≠ some 0 ∧
    (Connect (⟨constatus.yes, some 0, 1, []⟩ : ClientState)
        ⟨true, true, true⟩).1.freed = [] ∧
    (Connect (⟨constatus.yes, some 0, 1, []⟩ : ClientState)
        ⟨true, true, true⟩).2.2 = [Action.asyncWriteConnect (some 1) 15] :=
  (C9_reconnect_no_state_check ⟨constatus.yes, some 0, 1, []⟩ 0
    ⟨true, true, true⟩ (by decide) (by decide) (by decide) (by decide)
    (by decide) (by decide)).2

/-- Claim C10: each completion handler leaves the whole state unchanged on
its success path (no error, and for the two write handlers exactly 15 bytes
sent), and on its error path changes only the connection state, always to
Disconnected. -/
theorem C10_handler_state_effects (s : ClientState) (e : Bool) (n m : Nat)
    (he : e = true ∨ m ≠ 15) :
    (handle_read s false n).1 = s ∧
    (handle_connect_write s false 15).1 = s ∧
    (handle_write s false 15).1 = s ∧
    (handle_read s true n).1 = { s with myConnection := constatus.no } ∧
    (handle_connect_write s e m).1 = { s with myConnection := constatus.no } ∧
    (handle_write s e m).1 = { s with myConnection := constatus.no } := by
  refine ⟨by simp [handle_read], by simp [handle_connect_write],
    by simp [handle_write], by simp [handle_read], ?_, ?_⟩ <;>
    rcases he with h | h <;> simp [handle_connect_write, handle_write, h]

/-- Witness for C10_handler_state_effects at a connected state with a failed
completion of 0 bytes. -/
theorem C10_handler_state_effects_witness :
    (handle_read (⟨constatus.yes, some 1, 2, []⟩ : ClientState) false 4).1
      = (⟨constatus.yes, some 1, 2, []⟩ : ClientState) ∧
    (handle_connect_write (⟨constatus.yes, some 1, 2, []⟩ : ClientState)
        false 15).1 = (⟨constatus.yes, some 1, 2, []⟩ : ClientState) ∧
    (handle_write (⟨constatus.yes, some 1, 2, []⟩ : ClientState) false 15).1
      = (⟨constatus.yes, some 1, 2, []⟩ : ClientState) ∧
    (handle_read (⟨constatus.yes, some 1, 2, []⟩ : ClientState) true 4).1
      = (⟨constatus.no, some 1, 2, []⟩ : ClientState) ∧
    (handle_connect_write (⟨constatus.yes, some 1, 2, []⟩ : ClientState)
        true 0).1 = (⟨constatus.no, some 1, 2, []⟩ : ClientState) ∧
    (handle_write (⟨constatus.yes, some 1, 2, []⟩ : ClientState) true 0).1
      = (⟨constatus.no, some 1, 2, []⟩ : ClientState) :=
  C10_handler_state_effects ⟨constatus.yes, some 1, 2, []⟩ true 4 0 (by decide)

end FL18605759
